import Mathlib

/-!
Verification of the SkeldJS pathfinding movement controller
(src/packages/pathfinding/ts/lib/Pathfinder.ts) against its
natural-language specification.

The controller is shallowly embedded: the mutable fields of the
SkeldjsPathfinder class become a PathfinderState record, each method
becomes a state-passing function returning the new state together with
the ordered list of notifications it emits, and the per-tick environment
(current map, result of the lazy grid load, current player position, and
whether the consumer accepts the move intent) is passed in as a
TickInput record.  The tick handler can throw (the grid load via
fs.readFileSync / Grid.fromBuffer), so it returns an Except.
-/

namespace Skeldjs

/-- A world-space position, as in the Vector2 values exchanged with the
client.  Coordinates are modelled as integers; none of the verified
properties depend on fractional positions. -/
structure Vector2 where
  x : Int
  y : Int
deriving DecidableEq, Repr

/-- A cell of the navigation grid (util/Node.ts), identified by its
integer grid coordinates. -/
structure Node where
  x : Int
  y : Int
deriving DecidableEq, Repr

/-- Modelled from the spec: the navigation grid (its source,
util/Grid.ts, is not under src/).  Per the spec it answers nearest-cell
queries for any world point, maps cells back to world coordinates by an
affine transform, and carries transient per-search bookkeeping that
must be cleared by reset before each search.  The transient state is
abstracted as a freshness flag, and the route the engine would find on
a clean grid as a search function. -/
structure Grid where
  nearest : Vector2 → Node
  actual : Node → Vector2
  search : Node → Node → List Node
  fresh : Bool

/-- Modelled from the spec: Grid.reset clears transient per-cell search
bookkeeping in bulk, leaving the cells and the affine mapping
unchanged. -/
def Grid.reset (g : Grid) : Grid :=
  { g with fresh := true }

/-- Modelled from the spec: getShortestPath (engine.ts is not under
src/) returns the minimal walkable route from start to goal, excluding
the start cell, or an empty sequence when the goal is unreachable or
equals the start.  A correct result is only produced on a grid whose
transient state was cleared; the search marks the transient state
used. -/
def getShortestPath (g : Grid) (s d : Node) : Grid × List Node :=
  ({ g with fresh := false }, if g.fresh then g.search s d else [])

/-- The notifications and actuations the controller can emit, in
emission order.  startEv, stopEv, endEv, pauseEv, moveEv and
recalculateEv are the pathfinding.start, pathfinding.stop,
pathfinding.end, pathfinding.pause, engine.move and engine.recalculate
events; transformMove records the actual movement issued through
this.transform.move when the move intent is accepted (its speed vector
is not modelled). -/
inductive Output where
  | startEv (destination : Option Vector2)
  | stopEv (reached : Bool)
  | endEv
  | pauseEv
  | moveEv (position : Vector2)
  | recalculateEv (path : List Vector2)
  | transformMove (position : Vector2)
deriving DecidableEq, Repr

/-- The exception thrown out of the tick handler when the lazy grid
load fails (fs.readFileSync on a missing file, or Grid.fromBuffer on a
malformed payload). -/
inductive GridLoadError where
  | loadFailed
deriving DecidableEq, Repr

/-- The mutable fields of the SkeldjsPathfinder class: the private
counters and flags and the public destination, grid and path fields.
In the source, destination, grid and path start undefined and are set
to null in some branches; both absences are modelled as none.  An
empty path array is some [], distinct from none, exactly as [] is
truthy in the source while null and undefined are falsy. -/
structure PathfinderState where
  tick : Nat
  moved : Bool
  paused : Bool
  destination : Option Vector2
  grid : Option Grid
  path : Option (List Node)

/-- The state right after construction: only the tick counter is
initialised; every other field is undefined (falsy). -/
def initialState : PathfinderState :=
  { tick := 0, moved := false, paused := false,
    destination := none, grid := none, path := none }

/-- The per-tick environment read by the tick handler: the current
map from the room settings, the grid that a lazy load would produce
(none when the load would throw), the player position from the
network transform, and the consumer's verdict on the engine.move
intent. -/
structure TickInput where
  map : Option Nat
  loadGrid : Option Grid
  position : Option Vector2
  moveAccepted : Bool

namespace SkeldjsPathfinder

/-- The fixed movement cadence: the handler acts only on ticks whose
incremented counter is a multiple of this. -/
def MovementInterval : Nat := 6

/-- The effective recalculation period, config.recalculateEvery or 1:
in the source both an absent setting and 0 are falsy, so both fall
back to 1. -/
def effectiveRecalcEvery (cfg : Option Nat) : Nat :=
  match cfg with
  | none => 1
  | some k => if k = 0 then 1 else k

/-- The private stop routine: clears the destination, sets the dirty
flag when the destination was not reached, emits pathfinding.stop with
the reached flag and, on arrival, pathfinding.end.  It does not touch
the path field. -/
def stopFull (reached : Bool) (s : PathfinderState) :
    PathfinderState × List Output :=
  ({ s with destination := none,
            moved := if reached then s.moved else true },
   if reached then [Output.stopEv true, Output.endEv]
   else [Output.stopEv false])

/-- The public stop operation, stopFull with reached = false. -/
def stop (s : PathfinderState) : PathfinderState × List Output :=
  stopFull false s

/-- pause sets the pause flag and emits pathfinding.pause. -/
def pause (s : PathfinderState) : PathfinderState × List Output :=
  ({ s with paused := true }, [Output.pauseEv])

/-- start clears the pause flag and emits pathfinding.start carrying
the current destination, whatever it is. -/
def start (s : PathfinderState) : PathfinderState × List Output :=
  ({ s with paused := false }, [Output.startEv s.destination])

/-- The private go routine: stores a copy of the destination vector,
sets the dirty flag and delegates to start. -/
def goFull (dest : Vector2) (s : PathfinderState) :
    PathfinderState × List Output :=
  start { s with destination := some { x := dest.x, y := dest.y },
                 moved := true }

/-- go with a Vector2 argument.  The source dispatches on the JS
truthiness of vec.x, so a vector whose x coordinate is 0 falls
through this branch; it is not a Node, and resolving it as a player
yields nothing, so the call is a no-op. -/
def go (pos : Vector2) (s : PathfinderState) : PathfinderState × List Output :=
  if pos.x ≠ 0 then goFull pos s else (s, [])

/-- The body of the recalculate method given the grid, the current
position and the destination: reset the grid, search from the nearest
cell to the position toward the nearest cell to the destination, and
emit engine.recalculate carrying the new path mapped to world
coordinates. -/
def recalcCore (g : Grid) (pos dest : Vector2) :
    Grid × List Node × List Output :=
  let g1 := Grid.reset g
  let r := getShortestPath g1 (g1.nearest pos) (g1.nearest dest)
  (r.1, r.2, [Output.recalculateEv (r.2.map r.1.actual)])

/-- The public recalculate operation.  It is none when the source
would throw (no grid loaded) or when its behaviour is not determined
by src/ (a missing position or destination makes the snode or dnode
getter yield null, which is handed to the external engine). -/
def recalculate (pos : Option Vector2) (s : PathfinderState) :
    Option (PathfinderState × List Output) :=
  match s.grid, pos, s.destination with
  | some g, some p, some d =>
    let r := recalcCore g p d
    some ({ s with grid := some r.1, path := some r.2.1 }, r.2.2)
  | _, _, _ => none

/-- The tick counter increment at the top of the tick handler. -/
def tickIncr (s : PathfinderState) : PathfinderState :=
  { s with tick := s.tick + 1 }

/-- The recalculation trigger on an acting tick (s already has the
incremented counter): the dirty flag, no path held (an empty path
array does not count as no path), or the periodic interval. -/
def recalcTrigger (cfg : Option Nat) (s : PathfinderState) : Bool :=
  s.moved || s.path.isNone || s.tick % effectiveRecalcEvery cfg == 0

/-- The recalculation phase of an acting tick: when the trigger holds,
run recalcCore, store the new grid and path and clear the dirty flag;
otherwise change nothing.  Returns the grid, the state and the
emissions of the phase. -/
def recalcPhase (cfg : Option Nat) (g : Grid) (pos dest : Vector2)
    (s : PathfinderState) : Grid × PathfinderState × List Output :=
  if recalcTrigger cfg s then
    let c := recalcCore g pos dest
    (c.1, { s with grid := some c.1, path := some c.2.1, moved := false },
     c.2.2)
  else (g, s, [])

/-- The consumption phase of a non-paused acting tick: shift the first
path cell.  A cell pops to a move intent (and, when accepted, an
actual movement), followed by the arrival handling when the path is
now empty; shifting an empty array yields undefined and silently
clears both destination and path. -/
def consumePhase (accepted : Bool) (g1 : Grid) (s1 : PathfinderState) :
    PathfinderState × List Output :=
  match s1.path with
  | none => (s1, [])
  | some [] => ({ s1 with destination := none, path := none }, [])
  | some (next :: rest) =>
    let mpos := g1.actual next
    let s2 := { s1 with path := some rest }
    let evs2 := Output.moveEv mpos ::
      (if accepted then [Output.transformMove mpos] else [])
    if rest.isEmpty then
      let r3 := stopFull true s2
      (r3.1, evs2 ++ r3.2)
    else (s2, evs2)

/-- The acting-tick body once the grid is available (s already has the
incremented counter and grid := some g): the snode and dnode guards,
the recalculation phase, the pause gate, and the consumption phase. -/
def tickBody (cfg : Option Nat) (inp : TickInput) (g : Grid)
    (s : PathfinderState) : PathfinderState × List Output :=
  match inp.position, s.destination with
  | some pos, some dest =>
    let r := recalcPhase cfg g pos dest s
    if r.2.1.paused then (r.2.1, r.2.2)
    else
      let c := consumePhase inp.moveAccepted r.1 r.2.1
      (c.1, r.2.2 ++ c.2)
  | _, _ => (s, [])

/-- The tick handler: increment the counter, act only when it is a
multiple of MovementInterval and a map is set, lazily load the grid
(propagating a load failure), then run the acting-tick body. -/
def ontick (cfg : Option Nat) (inp : TickInput) (s0 : PathfinderState) :
    Except GridLoadError (PathfinderState × List Output) :=
  let s := tickIncr s0
  if s.tick % MovementInterval ≠ 0 then Except.ok (s, []) else
  match inp.map with
  | none => Except.ok (s, [])
  | some _ =>
    match s.grid with
    | some g => Except.ok (tickBody cfg inp g s)
    | none =>
      match inp.loadGrid with
      | some g => Except.ok (tickBody cfg inp g { s with grid := some g })
      | none => Except.error GridLoadError.loadFailed

/-- The path held at the start of the consumption phase of an acting
tick, as an Option: the freshly computed path when the recalculation
trigger holds, the previously held path otherwise. -/
def heldPath (cfg : Option Nat) (g : Grid) (pos dest : Vector2)
    (s : PathfinderState) : Option (List Node) :=
  (recalcPhase cfg g pos dest s).2.1.path

end SkeldjsPathfinder

/-- The alignment of destination and path claimed as an invariant by
the spec: both present or both absent. -/
def destPathAligned (s : PathfinderState) : Bool :=
  (s.destination.isSome && s.path.isSome) ||
  (s.destination.isNone && s.path.isNone)

/-! Concrete fixtures used to instantiate the verified properties. -/

/-- A concrete grid cell. -/
def nodeA : Node := { x := 1, y := 1 }

/-- A second concrete grid cell. -/
def nodeB : Node := { x := 2, y := 1 }

/-- A concrete grid whose engine route is the given list: every world
point snaps to nodeA, and cells map to world coordinates by scaling
their coordinates by 10. -/
def mkGrid (route : List Node) : Grid :=
  { nearest := fun _ => nodeA
    actual := fun n => { x := n.x * 10, y := n.y * 10 }
    search := fun _ _ => route
    fresh := false }

/-- A tick environment: map 0, no lazy load needed, player at (2, 2),
move intents accepted. -/
def inputStd : TickInput :=
  { map := some 0, loadGrid := none, position := some { x := 2, y := 2 },
    moveAccepted := true }

/-- The same environment with move intents rejected by the consumer. -/
def inputRej : TickInput :=
  { map := some 0, loadGrid := none, position := some { x := 2, y := 2 },
    moveAccepted := false }

/-- A controller one tick before an acting tick, holding a destination
and a one-cell path, with no recalculation trigger pending under a
period-5 configuration. -/
def stateC1 : PathfinderState :=
  { tick := 5, moved := false, paused := false,
    destination := some { x := 3, y := 3 }, grid := some (mkGrid []),
    path := some [nodeA] }

/-- A dirty controller whose grid finds no route (unreachable goal). -/
def stateC2 : PathfinderState :=
  { tick := 5, moved := true, paused := false,
    destination := some { x := 3, y := 3 }, grid := some (mkGrid []),
    path := none }

/-- A dirty controller whose grid finds the two-cell route. -/
def stateC3 : PathfinderState :=
  { tick := 5, moved := true, paused := false,
    destination := some { x := 3, y := 3 },
    grid := some (mkGrid [nodeA, nodeB]), path := none }

/-- A controller with a destination set while pathfinding is idle. -/
def stateC4 : PathfinderState :=
  { tick := 0, moved := false, paused := false,
    destination := some { x := 9, y := 9 }, grid := none, path := none }

/-- A clean controller with no path held, whose grid finds the
two-cell route. -/
def stateC6 : PathfinderState :=
  { tick := 5, moved := false, paused := false,
    destination := some { x := 3, y := 3 },
    grid := some (mkGrid [nodeA, nodeB]), path := none }

/-- A paused controller holding a two-cell path with no recalculation
trigger pending under a period-5 configuration. -/
def stateC7 : PathfinderState :=
  { tick := 5, moved := false, paused := true,
    destination := some { x := 3, y := 3 }, grid := some (mkGrid []),
    path := some [nodeA, nodeB] }

/-- A paused dirty controller with no path held. -/
def stateC7w : PathfinderState :=
  { tick := 5, moved := true, paused := true,
    destination := some { x := 3, y := 3 },
    grid := some (mkGrid [nodeA, nodeB]), path := none }

/-- A controller one tick before an acting tick with no destination
and no grid loaded. -/
def stateC8 : PathfinderState :=
  { tick := 5, moved := false, paused := false,
    destination := none, grid := none, path := none }

/-- A tick environment where the lazy grid load succeeds but the
player has no position. -/
def inputC8 : TickInput :=
  { map := some 0, loadGrid := some (mkGrid []), position := none,
    moveAccepted := false }

/-- A tick environment where the lazy grid load fails. -/
def inputC9 : TickInput :=
  { map := some 0, loadGrid := none, position := none,
    moveAccepted := false }

namespace SkeldjsPathfinder

/-! Reduction lemmas for the tick handler, shared by the claim
theorems below. -/

theorem tickIncr_fields (s : PathfinderState) :
    (tickIncr s).tick = s.tick + 1 ∧ (tickIncr s).moved = s.moved ∧
    (tickIncr s).paused = s.paused ∧
    (tickIncr s).destination = s.destination ∧
    (tickIncr s).grid = s.grid ∧ (tickIncr s).path = s.path :=
  ⟨rfl, rfl, rfl, rfl, rfl, rfl⟩

theorem recalcPhase_of_trigger (cfg : Option Nat) (g : Grid)
    (pos dest : Vector2) (s : PathfinderState)
    (h : recalcTrigger cfg s = true) :
    recalcPhase cfg g pos dest s =
      ((recalcCore g pos dest).1,
       { s with grid := some (recalcCore g pos dest).1,
                path := some (recalcCore g pos dest).2.1, moved := false },
       (recalcCore g pos dest).2.2) := by
  unfold recalcPhase
  rw [h]
  simp

theorem recalcPhase_of_no_trigger (cfg : Option Nat) (g : Grid)
    (pos dest : Vector2) (s : PathfinderState)
    (h : recalcTrigger cfg s = false) :
    recalcPhase cfg g pos dest s = (g, s, []) := by
  unfold recalcPhase
  rw [h]
  simp

theorem recalcPhase_paused (cfg : Option Nat) (g : Grid)
    (pos dest : Vector2) (s : PathfinderState) :
    (recalcPhase cfg g pos dest s).2.1.paused = s.paused := by
  unfold recalcPhase
  split <;> rfl

theorem recalcPhase_destination (cfg : Option Nat) (g : Grid)
    (pos dest : Vector2) (s : PathfinderState) :
    (recalcPhase cfg g pos dest s).2.1.destination = s.destination := by
  unfold recalcPhase
  split <;> rfl

theorem recalcPhase_evs (cfg : Option Nat) (g : Grid)
    (pos dest : Vector2) (s : PathfinderState) :
    (recalcPhase cfg g pos dest s).2.2 = [] ∨
    (recalcPhase cfg g pos dest s).2.2 =
      [Output.recalculateEv
        ((recalcCore g pos dest).2.1.map (recalcCore g pos dest).1.actual)] := by
  unfold recalcPhase recalcCore
  split
  · right; rfl
  · left; rfl

theorem ontick_acting (cfg : Option Nat) (inp : TickInput)
    (s0 : PathfinderState) (g : Grid) (m : Nat)
    (hact : (s0.tick + 1) % MovementInterval = 0)
    (hmap : inp.map = some m)
    (hg : s0.grid = some g) :
    ontick cfg inp s0 = Except.ok (tickBody cfg inp g (tickIncr s0)) := by
  have hg1 : (tickIncr s0).grid = some g := hg
  simp only [ontick, tickIncr] at hg1 ⊢
  simp [hact, hmap, hg1]

theorem ontick_skip (cfg : Option Nat) (inp : TickInput)
    (s0 : PathfinderState)
    (h : (s0.tick + 1) % MovementInterval ≠ 0) :
    ontick cfg inp s0 = Except.ok (tickIncr s0, []) := by
  simp only [ontick, tickIncr]
  simp [h]

theorem ontick_no_map (cfg : Option Nat) (inp : TickInput)
    (s0 : PathfinderState)
    (hact : (s0.tick + 1) % MovementInterval = 0)
    (hmap : inp.map = none) :
    ontick cfg inp s0 = Except.ok (tickIncr s0, []) := by
  simp only [ontick, tickIncr]
  simp [hact, hmap]

theorem tickBody_guard (cfg : Option Nat) (inp : TickInput) (g : Grid)
    (s : PathfinderState)
    (h : inp.position = none ∨ s.destination = none) :
    tickBody cfg inp g s = (s, []) := by
  unfold tickBody
  rcases h with h | h
  · rw [h]
  · rw [h]
    cases inp.position <;> rfl

theorem tickBody_run (cfg : Option Nat) (inp : TickInput) (g : Grid)
    (s : PathfinderState) (pos dest : Vector2)
    (hpos : inp.position = some pos)
    (hdest : s.destination = some dest)
    (hpause : s.paused = false) :
    tickBody cfg inp g s =
      ((consumePhase inp.moveAccepted (recalcPhase cfg g pos dest s).1
          (recalcPhase cfg g pos dest s).2.1).1,
       (recalcPhase cfg g pos dest s).2.2 ++
         (consumePhase inp.moveAccepted (recalcPhase cfg g pos dest s).1
           (recalcPhase cfg g pos dest s).2.1).2) := by
  unfold tickBody
  rw [hpos, hdest]
  have hp : (recalcPhase cfg g pos dest s).2.1.paused = false := by
    rw [recalcPhase_paused, hpause]
  simp only [hp]
  simp

theorem tickBody_run_paused (cfg : Option Nat) (inp : TickInput) (g : Grid)
    (s : PathfinderState) (pos dest : Vector2)
    (hpos : inp.position = some pos)
    (hdest : s.destination = some dest)
    (hpause : s.paused = true) :
    tickBody cfg inp g s =
      ((recalcPhase cfg g pos dest s).2.1,
       (recalcPhase cfg g pos dest s).2.2) := by
  unfold tickBody
  rw [hpos, hdest]
  have hp : (recalcPhase cfg g pos dest s).2.1.paused = true := by
    rw [recalcPhase_paused, hpause]
  simp only [hp]
  simp

theorem consumePhase_last (accepted : Bool) (g1 : Grid)
    (s1 : PathfinderState) (c : Node)
    (h : s1.path = some [c]) :
    consumePhase accepted g1 s1 =
      ({ s1 with path := some [], destination := none },
       Output.moveEv (g1.actual c) ::
         ((if accepted then [Output.transformMove (g1.actual c)] else []) ++
          [Output.stopEv true, Output.endEv])) := by
  unfold consumePhase
  rw [h]
  simp [stopFull]

theorem consumePhase_mid (accepted : Bool) (g1 : Grid)
    (s1 : PathfinderState) (c : Node) (rest : List Node)
    (h : s1.path = some (c :: rest)) (hne : rest ≠ []) :
    consumePhase accepted g1 s1 =
      ({ s1 with path := some rest },
       Output.moveEv (g1.actual c) ::
         (if accepted then [Output.transformMove (g1.actual c)] else [])) := by
  unfold consumePhase
  rw [h]
  simp [List.isEmpty_iff, hne]

theorem consumePhase_empty (accepted : Bool) (g1 : Grid)
    (s1 : PathfinderState)
    (h : s1.path = some []) :
    consumePhase accepted g1 s1 =
      ({ s1 with destination := none, path := none }, []) := by
  unfold consumePhase
  rw [h]

theorem ontick_acting_load (cfg : Option Nat) (inp : TickInput)
    (s0 : PathfinderState) (g : Grid) (m : Nat)
    (hact : (s0.tick + 1) % MovementInterval = 0)
    (hmap : inp.map = some m)
    (hg : s0.grid = none)
    (hl : inp.loadGrid = some g) :
    ontick cfg inp s0 =
      Except.ok (tickBody cfg inp g { tickIncr s0 with grid := some g }) := by
  have hg1 : (tickIncr s0).grid = none := hg
  simp only [ontick, tickIncr] at hg1 ⊢
  simp [hact, hmap, hg1, hl]

theorem ontick_load_fail (cfg : Option Nat) (inp : TickInput)
    (s0 : PathfinderState) (m : Nat)
    (hact : (s0.tick + 1) % MovementInterval = 0)
    (hmap : inp.map = some m)
    (hg : s0.grid = none)
    (hl : inp.loadGrid = none) :
    ontick cfg inp s0 = Except.error GridLoadError.loadFailed := by
  have hg1 : (tickIncr s0).grid = none := hg
  simp only [ontick, tickIncr] at hg1 ⊢
  simp [hact, hmap, hg1, hl]

end SkeldjsPathfinder

open SkeldjsPathfinder

/-- C10: every call to start() sets the pause flag to false and emits a
pathfinding.start notification carrying the current destination —
including a null destination when none is set — and it never modifies
the destination, the path, or the dirty flag. -/
theorem C10_start_behaviour (s : PathfinderState) :
    start s = ({ s with paused := false }, [Output.startEv s.destination]) ∧
    (start s).1.destination = s.destination ∧
    (start s).1.path = s.path ∧
    (start s).1.moved = s.moved :=
  ⟨rfl, rfl, rfl, rfl⟩

/-- C4 counterexample: calling go with the world position (0, 5) — whose
x coordinate is 0 and hence falsy under the source's vec.x test — leaves
the whole state unchanged and emits nothing: the destination is not set
to (0, 5), the dirty flag stays clear, and no start notification is
emitted, refuting the claim at this input. -/
theorem C4_counterexample :
    go { x := 0, y := 5 } stateC4 = (stateC4, []) ∧
    (go { x := 0, y := 5 } stateC4).1.destination ≠ some { x := 0, y := 5 } ∧
    (go { x := 0, y := 5 } stateC4).1.moved ≠ true ∧
    (go { x := 0, y := 5 } stateC4).2 ≠
      [Output.startEv (some { x := 0, y := 5 })] :=
  ⟨rfl, by decide, by decide, by decide⟩

/-- C4 amended: for every world-position destination whose x coordinate
is nonzero, go sets the destination to a copy of that position, sets the
dirty flag (moved = true), clears the pause flag via the start call, and
emits one start notification carrying the destination. -/
theorem C4_go_sets_destination (v : Vector2) (s : PathfinderState)
    (h : v.x ≠ 0) :
    go v s =
      ({ s with destination := some { x := v.x, y := v.y },
                moved := true, paused := false },
       [Output.startEv (some { x := v.x, y := v.y })]) := by
  unfold go goFull start
  rw [if_pos h]

/-- C4 witness: the amended property instantiated at the destination
(3, 7) from the freshly constructed controller. -/
theorem C4_witness :
    ({ x := 3, y := 7 } : Vector2).x ≠ 0 ∧
    go { x := 3, y := 7 } initialState =
      ({ initialState with destination := some { x := 3, y := 7 },
                           moved := true, paused := false },
       [Output.startEv (some { x := 3, y := 7 })]) :=
  ⟨by decide, C4_go_sets_destination { x := 3, y := 7 } initialState (by decide)⟩

/-- C9 counterexample: on an acting tick with a defined map, no grid
held, and a failing lazy grid load, the tick handler propagates the
load failure instead of returning normally, refuting the claim that
every anomaly results in a no-op or an emitted notification. -/
theorem C9_counterexample :
    ontick none inputC9 stateC8 = Except.error GridLoadError.loadFailed ∧
    (ontick none inputC9 stateC8).toOption = none :=
  ⟨rfl, rfl⟩

/-- C9 amended: the tick handler throws only out of the lazy grid load
— on an acting tick with a defined map, no grid held, and a failing
load; on every other input it returns normally, so every other anomaly
is a no-op or an emitted notification. -/
theorem C9_throws_only_on_failed_load (cfg : Option Nat) (inp : TickInput)
    (s0 : PathfinderState) :
    (∃ r, ontick cfg inp s0 = Except.ok r) ∨
    ((s0.tick + 1) % MovementInterval = 0 ∧ inp.map.isSome = true ∧
     s0.grid = none ∧ inp.loadGrid = none ∧
     ontick cfg inp s0 = Except.error GridLoadError.loadFailed) := by
  by_cases hact : (s0.tick + 1) % MovementInterval = 0
  · cases hmap : inp.map with
    | none => exact Or.inl ⟨_, ontick_no_map cfg inp s0 hact hmap⟩
    | some m =>
      cases hg : s0.grid with
      | some g => exact Or.inl ⟨_, ontick_acting cfg inp s0 g m hact hmap hg⟩
      | none =>
        cases hl : inp.loadGrid with
        | some g =>
          exact Or.inl ⟨_, ontick_acting_load cfg inp s0 g m hact hmap hg hl⟩
        | none =>
          exact Or.inr ⟨hact, rfl, rfl, rfl,
            ontick_load_fail cfg inp s0 m hact hmap hg hl⟩
  · exact Or.inl ⟨_, ontick_skip cfg inp s0 hact⟩

/-- C8 counterexample: on an acting tick with a defined map, no grid
held, a succeeding lazy load, and no destination, the handler loads and
stores the grid — a state change beyond the tick counter — refuting the
claim that such ticks change nothing but the counter. -/
theorem C8_counterexample :
    (Except.toOption (ontick none inputC8 stateC8)).map
        (fun r => r.1.grid.isSome) = some true ∧
    (Except.toOption (ontick none inputC8 stateC8)).map
        (fun r => (r.1.tick, r.1.destination, r.1.path, r.2)) =
      some (6, none, none, []) ∧
    stateC8.grid.isSome = false ∧
    (Except.toOption (ontick none inputC8 stateC8)).map
        (fun r => r.1.grid.isSome) ≠ some stateC8.grid.isSome :=
  ⟨by decide, by decide, rfl, by decide⟩

/-- C8 amended: on a tick whose incremented counter is not a multiple
of MovementInterval, or an acting tick with no map, the handler only
increments the tick counter and emits nothing; on an acting tick with a
map but no position or no destination, the same holds except that a
grid is first lazily loaded and stored when none is held. -/
theorem C8_idle_ticks (cfg : Option Nat) (inp : TickInput)
    (s0 : PathfinderState) (g : Grid) (m : Nat) :
    ((s0.tick + 1) % MovementInterval ≠ 0 →
      ontick cfg inp s0 = Except.ok (tickIncr s0, [])) ∧
    ((s0.tick + 1) % MovementInterval = 0 → inp.map = none →
      ontick cfg inp s0 = Except.ok (tickIncr s0, [])) ∧
    ((s0.tick + 1) % MovementInterval = 0 → inp.map = some m →
      s0.grid = some g → (inp.position = none ∨ s0.destination = none) →
      ontick cfg inp s0 = Except.ok (tickIncr s0, [])) ∧
    ((s0.tick + 1) % MovementInterval = 0 → inp.map = some m →
      s0.grid = none → inp.loadGrid = some g →
      (inp.position = none ∨ s0.destination = none) →
      ontick cfg inp s0 =
        Except.ok ({ tickIncr s0 with grid := some g }, [])) := by
  refine ⟨fun h => ontick_skip cfg inp s0 h,
          fun hact hmap => ontick_no_map cfg inp s0 hact hmap, ?_, ?_⟩
  · intro hact hmap hg hguard
    rw [ontick_acting cfg inp s0 g m hact hmap hg]
    rw [tickBody_guard cfg inp g (tickIncr s0) (by exact hguard)]
  · intro hact hmap hg hl hguard
    rw [ontick_acting_load cfg inp s0 g m hact hmap hg hl]
    rw [tickBody_guard cfg inp g { tickIncr s0 with grid := some g }
      (by exact hguard)]

/-- C1 counterexample: on the acting tick that pops the last path cell,
the controller clears the destination and emits one stop notification
with reached = true and one end notification, but the path is left as
the empty array rather than cleared to null, refuting the claim that
both the destination and the path are cleared. -/
theorem C1_counterexample :
    (Except.toOption (ontick (some 5) inputStd stateC1)).map
        (fun r => (r.1.destination, r.1.path, r.2)) =
      some (none, some [],
        [Output.moveEv { x := 10, y := 10 },
         Output.transformMove { x := 10, y := 10 },
         Output.stopEv true, Output.endEv]) ∧
    (Except.toOption (ontick (some 5) inputStd stateC1)).map
        (fun r => r.1.path) ≠ some none :=
  ⟨by decide, by decide⟩

/-- C1 amended: on the acting tick in which the held path has exactly
one cell left and that cell is popped, the controller clears the
destination, leaves the path as the empty (non-null) sequence, and —
after the tick's earlier emissions, which contain no stop or end —
emits exactly one stop notification with reached = true immediately
followed by exactly one end notification. -/
theorem C1_last_cell_tick (cfg : Option Nat) (inp : TickInput)
    (s0 : PathfinderState) (g : Grid) (m : Nat) (pos dest : Vector2)
    (c : Node)
    (hact : (s0.tick + 1) % MovementInterval = 0)
    (hmap : inp.map = some m)
    (hg : s0.grid = some g)
    (hpos : inp.position = some pos)
    (hdest : s0.destination = some dest)
    (hpause : s0.paused = false)
    (hheld : heldPath cfg g pos dest (tickIncr s0) = some [c]) :
    ∃ s' evs pre,
      ontick cfg inp s0 = Except.ok (s', evs) ∧
      s'.destination = none ∧
      s'.path = some [] ∧
      evs = pre ++ [Output.stopEv true, Output.endEv] ∧
      (∀ b, Output.stopEv b ∉ pre) ∧
      Output.endEv ∉ pre := by
  have hdest1 : (tickIncr s0).destination = some dest := hdest
  have hpause1 : (tickIncr s0).paused = false := hpause
  have hheld1 :
      (recalcPhase cfg g pos dest (tickIncr s0)).2.1.path = some [c] := hheld
  have hred := ontick_acting cfg inp s0 g m hact hmap hg
  rw [tickBody_run cfg inp g (tickIncr s0) pos dest hpos hdest1 hpause1] at hred
  rw [consumePhase_last inp.moveAccepted _ _ c hheld1] at hred
  refine ⟨_, _,
    (recalcPhase cfg g pos dest (tickIncr s0)).2.2 ++
      Output.moveEv ((recalcPhase cfg g pos dest (tickIncr s0)).1.actual c) ::
        (if inp.moveAccepted then
          [Output.transformMove
            ((recalcPhase cfg g pos dest (tickIncr s0)).1.actual c)]
         else []),
    hred, rfl, rfl, ?_, ?_, ?_⟩
  · simp
  · intro b
    rcases recalcPhase_evs cfg g pos dest (tickIncr s0) with h | h <;>
      rw [h] <;> cases hacc : inp.moveAccepted <;> simp
  · rcases recalcPhase_evs cfg g pos dest (tickIncr s0) with h | h <;>
      rw [h] <;> cases hacc : inp.moveAccepted <;> simp

/-- C1 witness: the amended property instantiated on the controller
holding the one-cell path toward (3, 3) at the acting tick. -/
theorem C1_witness :
    ((stateC1.tick + 1) % MovementInterval = 0 ∧ stateC1.paused = false ∧
     heldPath (some 5) (mkGrid []) { x := 2, y := 2 } { x := 3, y := 3 }
       (tickIncr stateC1) = some [nodeA]) ∧
    (∃ s' evs pre,
      ontick (some 5) inputStd stateC1 = Except.ok (s', evs) ∧
      s'.destination = none ∧
      s'.path = some [] ∧
      evs = pre ++ [Output.stopEv true, Output.endEv] ∧
      (∀ b, Output.stopEv b ∉ pre) ∧
      Output.endEv ∉ pre) :=
  ⟨⟨by decide, rfl, by decide⟩,
   C1_last_cell_tick (some 5) inputStd stateC1 (mkGrid []) 0
     { x := 2, y := 2 } { x := 3, y := 3 } nodeA (by decide) rfl rfl rfl rfl
     rfl (by decide)⟩

/-- C2 counterexample: on a non-paused acting tick whose recalculation
finds no route, the controller does not keep its destination: the
shift of the empty array clears both the destination and the path
silently, refuting the claim at this input. -/
theorem C2_counterexample :
    (Except.toOption (ontick none inputStd stateC2)).map
        (fun r => (r.1.destination, r.1.path, r.2)) =
      some (none, none, [Output.recalculateEv []]) ∧
    (Except.toOption (ontick none inputStd stateC2)).map
        (fun r => r.1.destination) ≠ some stateC2.destination :=
  ⟨by decide, by decide⟩

/-- C2 amended: when the recalculation phase of a non-paused acting
tick produces an empty path (unreachable goal), the subsequent shift of
the empty array yields undefined and the controller silently clears
both the destination and the path, emitting only the recalculation
notification for that tick: the destination is abandoned, not held for
a retry. -/
theorem C2_unreachable_abandons_destination (cfg : Option Nat)
    (inp : TickInput) (s0 : PathfinderState) (g : Grid) (m : Nat)
    (pos dest : Vector2)
    (hact : (s0.tick + 1) % MovementInterval = 0)
    (hmap : inp.map = some m)
    (hg : s0.grid = some g)
    (hpos : inp.position = some pos)
    (hdest : s0.destination = some dest)
    (hpause : s0.paused = false)
    (htrig : recalcTrigger cfg (tickIncr s0) = true)
    (hempty : (recalcCore g pos dest).2.1 = []) :
    ∃ s', ontick cfg inp s0 =
        Except.ok (s', (recalcCore g pos dest).2.2) ∧
      s'.destination = none ∧ s'.path = none := by
  have hdest1 : (tickIncr s0).destination = some dest := hdest
  have hpause1 : (tickIncr s0).paused = false := hpause
  have hred := ontick_acting cfg inp s0 g m hact hmap hg
  rw [tickBody_run cfg inp g (tickIncr s0) pos dest hpos hdest1 hpause1] at hred
  rw [recalcPhase_of_trigger cfg g pos dest (tickIncr s0) htrig] at hred
  rw [hempty] at hred
  rw [consumePhase_empty inp.moveAccepted _ _ rfl] at hred
  rw [List.append_nil] at hred
  exact ⟨_, hred, rfl, rfl⟩

/-- C2 witness: the amended property instantiated on the dirty
controller whose grid finds no route. -/
theorem C2_witness :
    (recalcTrigger none (tickIncr stateC2) = true ∧
     (recalcCore (mkGrid []) { x := 2, y := 2 } { x := 3, y := 3 }).2.1 = []) ∧
    (∃ s', ontick none inputStd stateC2 =
        Except.ok (s',
          (recalcCore (mkGrid []) { x := 2, y := 2 } { x := 3, y := 3 }).2.2) ∧
      s'.destination = none ∧ s'.path = none) :=
  ⟨⟨by decide, by decide⟩,
   C2_unreachable_abandons_destination none inputStd stateC2 (mkGrid []) 0
     { x := 2, y := 2 } { x := 3, y := 3 } (by decide) rfl rfl rfl rfl rfl
     (by decide) (by decide)⟩

/-- C3 counterexample: the forced public recalculate operation resets
the grid, searches, and emits the recalculation notification, but it
leaves the dirty flag set, refuting the claim that every recalculation
clears the dirty flag. -/
theorem C3_counterexample :
    (recalculate (some { x := 2, y := 2 }) stateC3).map
        (fun r => (r.1.moved, r.1.path, r.2)) =
      some (true, some [nodeA, nodeB],
        [Output.recalculateEv [{ x := 10, y := 10 }, { x := 20, y := 10 }]]) ∧
    (recalculate (some { x := 2, y := 2 }) stateC3).map
        (fun r => r.1.moved) ≠ some false :=
  ⟨by decide, by decide⟩

/-- C3 amended: every recalculation resets the grid, then runs the
shortest-path search on the reset grid, then emits exactly one
recalculation notification carrying the full new path in world
coordinates; a recalculation triggered from the tick handler ends its
tick with the dirty flag cleared, while the forced public recalculate
leaves the dirty flag unchanged. -/
theorem C3_recalculation_order (cfg : Option Nat) (inp : TickInput)
    (s0 : PathfinderState) (g : Grid) (m : Nat) (pos dest : Vector2)
    (hact : (s0.tick + 1) % MovementInterval = 0)
    (hmap : inp.map = some m)
    (hg : s0.grid = some g)
    (hpos : inp.position = some pos)
    (hdest : s0.destination = some dest)
    (htrig : recalcTrigger cfg (tickIncr s0) = true) :
    (recalcCore g pos dest).2.1 =
      (getShortestPath (Grid.reset g) ((Grid.reset g).nearest pos)
        ((Grid.reset g).nearest dest)).2 ∧
    (recalcCore g pos dest).2.2 =
      [Output.recalculateEv ((recalcCore g pos dest).2.1.map
        (recalcCore g pos dest).1.actual)] ∧
    (recalculate (some pos) s0).map (fun r => (r.1.moved, r.1.path, r.2)) =
      some (s0.moved, some (recalcCore g pos dest).2.1,
        (recalcCore g pos dest).2.2) ∧
    (∃ s' evs, ontick cfg inp s0 = Except.ok (s', evs) ∧ s'.moved = false) := by
  refine ⟨rfl, rfl, ?_, ?_⟩
  · unfold recalculate
    rw [hg, hdest]
    rfl
  · have hdest1 : (tickIncr s0).destination = some dest := hdest
    have hred := ontick_acting cfg inp s0 g m hact hmap hg
    by_cases hpause : s0.paused = true
    · have hpause1 : (tickIncr s0).paused = true := hpause
      rw [tickBody_run_paused cfg inp g (tickIncr s0) pos dest hpos hdest1
        hpause1] at hred
      rw [recalcPhase_of_trigger cfg g pos dest (tickIncr s0) htrig] at hred
      exact ⟨_, _, hred, rfl⟩
    · have hpause1 : (tickIncr s0).paused = false := by
        simp only [Bool.not_eq_true] at hpause
        exact hpause
      rw [tickBody_run cfg inp g (tickIncr s0) pos dest hpos hdest1
        hpause1] at hred
      rw [recalcPhase_of_trigger cfg g pos dest (tickIncr s0) htrig] at hred
      cases hL : (recalcCore g pos dest).2.1 with
      | nil =>
        rw [hL] at hred
        rw [consumePhase_empty inp.moveAccepted _ _ rfl] at hred
        exact ⟨_, _, hred, rfl⟩
      | cons c rest =>
        cases rest with
        | nil =>
          rw [hL] at hred
          rw [consumePhase_last inp.moveAccepted _ _ c rfl] at hred
          exact ⟨_, _, hred, rfl⟩
        | cons c2 rest2 =>
          rw [hL] at hred
          rw [consumePhase_mid inp.moveAccepted _ _ c (c2 :: rest2) rfl
            (by simp)] at hred
          exact ⟨_, _, hred, rfl⟩

/-- C3 witness: the amended property instantiated on the dirty
controller whose grid finds the two-cell route, taking the dirty-flag
conjunct of the tick-triggered recalculation. -/
theorem C3_witness :
    recalcTrigger none (tickIncr stateC3) = true ∧
    (∃ s' evs, ontick none inputStd stateC3 = Except.ok (s', evs) ∧
      s'.moved = false) :=
  ⟨by decide,
   (C3_recalculation_order none inputStd stateC3 (mkGrid [nodeA, nodeB]) 0
     { x := 2, y := 2 } { x := 3, y := 3 } (by decide) rfl rfl rfl rfl
     (by decide)).2.2.2⟩

/-- C5 counterexample: the state reached by calling go((1, 1)) on the
freshly constructed controller — a reachable state, and not within the
tick that clears a fully-consumed path — has a destination but no
path, so destination and path are neither both present nor both
absent, refuting the claimed invariant. -/
theorem C5_counterexample :
    (go { x := 1, y := 1 } initialState).1.destination.isSome = true ∧
    (go { x := 1, y := 1 } initialState).1.path = none ∧
    destPathAligned (go { x := 1, y := 1 } initialState).1 = false :=
  ⟨by decide, by decide, by decide⟩

/-- C5 amended: the claimed alignment of destination and path does
hold at the end of every non-paused acting tick that popped a cell and
left a non-empty remainder: destination and path are then both
present. (It is not an invariant of all reachable states: between go
and the next acting tick the destination is present with no path, and
after arrival the path survives as an empty array while the
destination is cleared.) -/
theorem C5_aligned_after_pop (cfg : Option Nat) (inp : TickInput)
    (s0 : PathfinderState) (g : Grid) (m : Nat) (pos dest : Vector2)
    (c : Node) (rest : List Node)
    (hact : (s0.tick + 1) % MovementInterval = 0)
    (hmap : inp.map = some m)
    (hg : s0.grid = some g)
    (hpos : inp.position = some pos)
    (hdest : s0.destination = some dest)
    (hpause : s0.paused = false)
    (hheld : heldPath cfg g pos dest (tickIncr s0) = some (c :: rest))
    (hne : rest ≠ []) :
    ∃ s' evs, ontick cfg inp s0 = Except.ok (s', evs) ∧
      s'.destination = some dest ∧ s'.path = some rest ∧
      destPathAligned s' = true := by
  have hdest1 : (tickIncr s0).destination = some dest := hdest
  have hpause1 : (tickIncr s0).paused = false := hpause
  have hheld1 : (recalcPhase cfg g pos dest (tickIncr s0)).2.1.path =
      some (c :: rest) := hheld
  have hD := recalcPhase_destination cfg g pos dest (tickIncr s0)
  have hred := ontick_acting cfg inp s0 g m hact hmap hg
  rw [tickBody_run cfg inp g (tickIncr s0) pos dest hpos hdest1 hpause1] at hred
  rw [consumePhase_mid inp.moveAccepted _ _ c rest hheld1 hne] at hred
  obtain ⟨s', evs, hred', hdd, hpp⟩ :
      ∃ s' evs, ontick cfg inp s0 = Except.ok (s', evs) ∧
        s'.destination = some dest ∧ s'.path = some rest :=
    ⟨_, _, hred, hD.trans hdest1, rfl⟩
  refine ⟨s', evs, hred', hdd, hpp, ?_⟩
  unfold destPathAligned
  rw [hdd, hpp]
  rfl

/-- C5 witness: the amended property instantiated on the clean
controller that recalculates the two-cell route and pops its first
cell. -/
theorem C5_witness :
    (heldPath none (mkGrid [nodeA, nodeB]) { x := 2, y := 2 }
        { x := 3, y := 3 } (tickIncr stateC6) = some [nodeA, nodeB] ∧
     ([nodeB] : List Node) ≠ []) ∧
    (∃ s' evs, ontick none inputStd stateC6 = Except.ok (s', evs) ∧
      s'.destination = some { x := 3, y := 3 } ∧ s'.path = some [nodeB] ∧
      destPathAligned s' = true) :=
  ⟨⟨by decide, by decide⟩,
   C5_aligned_after_pop none inputStd stateC6 (mkGrid [nodeA, nodeB]) 0
     { x := 2, y := 2 } { x := 3, y := 3 } nodeA [nodeB] (by decide) rfl rfl
     rfl rfl rfl (by decide) (by decide)⟩

/-- C6: on an acting tick in which the consumer rejects the move
intent, the intent is emitted but no movement is issued for that tick
(no transform move appears among the tick's effects), the first cell
of the path is still consumed, and no other state is corrupted: the
resulting state is exactly the one an accepting consumer would have
produced. -/
theorem C6_rejected_move (cfg : Option Nat) (inp : TickInput)
    (s0 : PathfinderState) (g : Grid) (m : Nat) (pos dest : Vector2)
    (c : Node) (rest : List Node)
    (hact : (s0.tick + 1) % MovementInterval = 0)
    (hmap : inp.map = some m)
    (hg : s0.grid = some g)
    (hpos : inp.position = some pos)
    (hdest : s0.destination = some dest)
    (hpause : s0.paused = false)
    (hheld : heldPath cfg g pos dest (tickIncr s0) = some (c :: rest))
    (hrej : inp.moveAccepted = false) :
    ∃ s' evs evsA,
      ontick cfg inp s0 = Except.ok (s', evs) ∧
      ontick cfg { inp with moveAccepted := true } s0 = Except.ok (s', evsA) ∧
      s'.path = some rest ∧
      (∀ q, Output.transformMove q ∉ evs) ∧
      Output.moveEv
        ((recalcPhase cfg g pos dest (tickIncr s0)).1.actual c) ∈ evs := by
  have hdest1 : (tickIncr s0).destination = some dest := hdest
  have hpause1 : (tickIncr s0).paused = false := hpause
  have hredR := ontick_acting cfg inp s0 g m hact hmap hg
  have hredA := ontick_acting cfg { inp with moveAccepted := true } s0 g m
    hact hmap hg
  rw [tickBody_run cfg inp g (tickIncr s0) pos dest hpos hdest1
    hpause1] at hredR
  rw [tickBody_run cfg { inp with moveAccepted := true } g (tickIncr s0) pos
    dest hpos hdest1 hpause1] at hredA
  rw [hrej] at hredR
  have hacc : ({ inp with moveAccepted := true } : TickInput).moveAccepted =
      true := rfl
  rw [hacc] at hredA
  cases rest with
  | nil =>
    have hheld1 : (recalcPhase cfg g pos dest (tickIncr s0)).2.1.path =
        some [c] := hheld
    rw [consumePhase_last false _ _ c hheld1] at hredR
    rw [consumePhase_last true _ _ c hheld1] at hredA
    refine ⟨_, _, _, hredR, hredA, rfl, ?_, ?_⟩
    · intro q
      rcases recalcPhase_evs cfg g pos dest (tickIncr s0) with h | h <;>
        rw [h] <;> simp
    · rcases recalcPhase_evs cfg g pos dest (tickIncr s0) with h | h <;>
        rw [h] <;> simp
  | cons c2 rest2 =>
    have hheld1 : (recalcPhase cfg g pos dest (tickIncr s0)).2.1.path =
        some (c :: c2 :: rest2) := hheld
    rw [consumePhase_mid false _ _ c (c2 :: rest2) hheld1 (by simp)] at hredR
    rw [consumePhase_mid true _ _ c (c2 :: rest2) hheld1 (by simp)] at hredA
    refine ⟨_, _, _, hredR, hredA, rfl, ?_, ?_⟩
    · intro q
      rcases recalcPhase_evs cfg g pos dest (tickIncr s0) with h | h <;>
        rw [h] <;> simp
    · rcases recalcPhase_evs cfg g pos dest (tickIncr s0) with h | h <;>
        rw [h] <;> simp

/-- C6 witness: the rejected-move property instantiated on the clean
controller that recalculates the two-cell route, with a rejecting
consumer. -/
theorem C6_witness :
    (heldPath none (mkGrid [nodeA, nodeB]) { x := 2, y := 2 }
        { x := 3, y := 3 } (tickIncr stateC6) = some [nodeA, nodeB] ∧
     inputRej.moveAccepted = false) ∧
    (∃ s' evs evsA,
      ontick none inputRej stateC6 = Except.ok (s', evs) ∧
      ontick none { inputRej with moveAccepted := true } stateC6 =
        Except.ok (s', evsA) ∧
      s'.path = some [nodeB] ∧
      (∀ q, Output.transformMove q ∉ evs) ∧
      Output.moveEv
        ((recalcPhase none (mkGrid [nodeA, nodeB]) { x := 2, y := 2 }
          { x := 3, y := 3 } (tickIncr stateC6)).1.actual nodeA) ∈ evs) :=
  ⟨⟨by decide, rfl⟩,
   C6_rejected_move none inputRej stateC6 (mkGrid [nodeA, nodeB]) 0
     { x := 2, y := 2 } { x := 3, y := 3 } nodeA [nodeB] (by decide) rfl rfl
     rfl rfl rfl (by decide) rfl⟩

/-- C7 counterexample: on a paused acting tick with a held path and no
recalculation trigger, the handler leaves the path untouched and emits
nothing, while the identical unpaused tick pops the first cell: pause
suppresses the pop (path bookkeeping) together with the move-intent
emission, refuting the claim that the emission is the only suppressed
step. -/
theorem C7_counterexample :
    (Except.toOption (ontick (some 5) inputStd stateC7)).map
        (fun r => (r.1.path, r.2)) = some (some [nodeA, nodeB], []) ∧
    (Except.toOption (ontick (some 5) inputStd
        { stateC7 with paused := false })).map
        (fun r => r.1.path) = some (some [nodeB]) ∧
    (some (some [nodeA, nodeB]) : Option (Option (List Node))) ≠
      some (some [nodeB]) :=
  ⟨by decide, by decide, by decide⟩

/-- C7 amended: while paused, an acting tick still runs the
recalculation phase — so when a trigger holds, the recalculate
notification is emitted, the new path is stored and the destination is
kept — but the whole consumption phase (the pop, the move-intent
emission, the movement, and the arrival handling) is suppressed, and
in particular no move intent or movement is emitted while paused. -/
theorem C7_paused_recalculates (cfg : Option Nat) (inp : TickInput)
    (s0 : PathfinderState) (g : Grid) (m : Nat) (pos dest : Vector2)
    (hact : (s0.tick + 1) % MovementInterval = 0)
    (hmap : inp.map = some m)
    (hg : s0.grid = some g)
    (hpos : inp.position = some pos)
    (hdest : s0.destination = some dest)
    (hpause : s0.paused = true)
    (htrig : recalcTrigger cfg (tickIncr s0) = true) :
    ∃ s', ontick cfg inp s0 =
        Except.ok (s', (recalcCore g pos dest).2.2) ∧
      s'.path = some (recalcCore g pos dest).2.1 ∧
      s'.destination = s0.destination ∧
      (recalcCore g pos dest).2.2 =
        [Output.recalculateEv ((recalcCore g pos dest).2.1.map
          (recalcCore g pos dest).1.actual)] ∧
      (∀ q, Output.moveEv q ∉ (recalcCore g pos dest).2.2) ∧
      (∀ q, Output.transformMove q ∉ (recalcCore g pos dest).2.2) := by
  have hdest1 : (tickIncr s0).destination = some dest := hdest
  have hpause1 : (tickIncr s0).paused = true := hpause
  have hred := ontick_acting cfg inp s0 g m hact hmap hg
  rw [tickBody_run_paused cfg inp g (tickIncr s0) pos dest hpos hdest1
    hpause1] at hred
  rw [recalcPhase_of_trigger cfg g pos dest (tickIncr s0) htrig] at hred
  refine ⟨_, hred, rfl, rfl, rfl, ?_, ?_⟩
  · intro q
    simp [recalcCore]
  · intro q
    simp [recalcCore]

/-- C7 witness: the amended property instantiated on the paused dirty
controller whose grid finds the two-cell route. -/
theorem C7_witness :
    (stateC7w.paused = true ∧
     recalcTrigger none (tickIncr stateC7w) = true) ∧
    (∃ s', ontick none inputStd stateC7w =
        Except.ok (s',
          (recalcCore (mkGrid [nodeA, nodeB]) { x := 2, y := 2 }
            { x := 3, y := 3 }).2.2) ∧
      s'.path = some (recalcCore (mkGrid [nodeA, nodeB]) { x := 2, y := 2 }
        { x := 3, y := 3 }).2.1 ∧
      s'.destination = stateC7w.destination ∧
      (recalcCore (mkGrid [nodeA, nodeB]) { x := 2, y := 2 }
        { x := 3, y := 3 }).2.2 =
        [Output.recalculateEv
          ((recalcCore (mkGrid [nodeA, nodeB]) { x := 2, y := 2 }
            { x := 3, y := 3 }).2.1.map
              (recalcCore (mkGrid [nodeA, nodeB]) { x := 2, y := 2 }
                { x := 3, y := 3 }).1.actual)] ∧
      (∀ q, Output.moveEv q ∉
        (recalcCore (mkGrid [nodeA, nodeB]) { x := 2, y := 2 }
          { x := 3, y := 3 }).2.2) ∧
      (∀ q, Output.transformMove q ∉
        (recalcCore (mkGrid [nodeA, nodeB]) { x := 2, y := 2 }
          { x := 3, y := 3 }).2.2)) :=
  ⟨⟨rfl, by decide⟩,
   C7_paused_recalculates none inputStd stateC7w (mkGrid [nodeA, nodeB]) 0
     { x := 2, y := 2 } { x := 3, y := 3 } (by decide) rfl rfl rfl rfl rfl
     (by decide)⟩

/-- C8 witness: the amended property instantiated on a non-acting tick
from the freshly constructed controller, and on an acting tick that
lazily loads the grid while no destination is set. -/
theorem C8_witness :
    ((initialState.tick + 1) % MovementInterval ≠ 0 ∧
     ontick none inputC8 initialState = Except.ok (tickIncr initialState, [])) ∧
    ((stateC8.tick + 1) % MovementInterval = 0 ∧
     ontick none inputC8 stateC8 =
       Except.ok ({ tickIncr stateC8 with grid := some (mkGrid []) }, [])) :=
  ⟨⟨by decide, (C8_idle_ticks none inputC8 initialState (mkGrid []) 0).1
      (by decide)⟩,
   ⟨by decide, (C8_idle_ticks none inputC8 stateC8 (mkGrid []) 0).2.2.2
      (by decide) rfl rfl rfl (Or.inl rfl)⟩⟩

end Skeldjs
